import Mathlib

/-!
Shallow embedding of the pronound repository (src/pronound.c, src/pronoun.c).

Strings are modelled as `List Char` (C strings up to their NUL terminator).
The host identity database (`getpwuid`/`getpwnam`) and the filesystem
(`fopen`/`fgets`) are parameters of the embedded functions.  A result of
`none` in an `Option`-valued embedding marks a branch whose C original has
no defined behaviour (NULL dereference, `strtok` on a null pointer).
-/

/-- Convert a Lean string literal to the `List Char` model of a C string. -/
def str (s : String) : List Char := s.data

/-- The whitespace set of `strip` (pronound.c lines 70-83): space, tab,
newline, carriage return. -/
def isWsC (c : Char) : Bool :=
  c == ' ' || c == '\t' || c == '\n' || c == '\r'

/-- The `isspace` set used by `atoi`: space, tab, newline, vertical tab,
form feed, carriage return. -/
def isSpaceC (c : Char) : Bool :=
  c == ' ' || c == '\t' || c == '\n' || c == '\x0B' || c == '\x0C' || c == '\r'

/-- Decimal digit test, as in pronound.c line 63 (`*str < '0' || *str > '9'`). -/
def isDigitC (c : Char) : Bool :=
  48 ≤ c.toNat && c.toNat ≤ 57

/-- `strip` (pronound.c lines 70-83): drop leading whitespace, then drop
trailing whitespace.  The C loop keeps at least the first character
(`end > str`), but after the leading drop that character is non-whitespace,
so dropping trailing whitespace from the right is an exact model. -/
def strip (l : List Char) : List Char :=
  ((l.dropWhile isWsC).reverse.dropWhile isWsC).reverse

/-- `is_number` (pronound.c lines 54-68): nonempty, optionally one leading
minus sign, then only decimal digits (and at least one of them). -/
def is_number (l : List Char) : Bool :=
  match l with
  | [] => false
  | c :: rest =>
    if c = '-' then
      match rest with
      | [] => false
      | _ :: _ => rest.all isDigitC
    else (c :: rest).all isDigitC

/-- Digit-consuming loop of `atoi`: accumulate decimal digits, stop at the
first non-digit. -/
def atoiDigits : List Char → Nat → Nat
  | [], acc => acc
  | c :: rest, acc =>
    if isDigitC c then atoiDigits rest (acc * 10 + (c.toNat - 48)) else acc

/-- C `atoi`: skip leading whitespace, optional sign, then digits; a string
with no leading digits parses to 0.  Overflow of `int` is undefined
behaviour in C; the embedding returns the mathematical value, which agrees
with C on every in-range input. -/
def atoi (l : List Char) : Int :=
  match l.dropWhile isSpaceC with
  | '-' :: rest => -(atoiDigits rest 0 : Int)
  | '+' :: rest => (atoiDigits rest 0 : Int)
  | l1 => (atoiDigits l1 0 : Int)

/-- The conversion `(uid_t)atoi(input)` in pronound.c line 87: `uid_t` is a
32-bit unsigned integer, so the signed value is reduced modulo 2^32. -/
def toUid (i : Int) : Nat := (i % 2 ^ 32).toNat

/-- One entry of the host identity database (`struct passwd`, the two fields
pronound uses). -/
structure Passwd where
  pw_uid : Nat
  pw_dir : List Char
deriving DecidableEq

/-- The host identity database: `getpwuid` and `getpwnam`. -/
structure Db where
  byUid : Nat → Option Passwd
  byName : List Char → Option Passwd

/-- `resolve` (pronound.c lines 85-105): numeric tokens are looked up by
uid (after the `uid_t` cast), other tokens by name; `none` is the
`*failed = true` path.  On success the C function returns `pw->pw_uid`.
(The name branch also prints a log line on failure; side effects are not
modelled.) -/
def resolveUid (db : Db) (input : List Char) : Option Nat :=
  if is_number input then
    (db.byUid (toUid (atoi input))).map Passwd.pw_uid
  else
    (db.byName input).map Passwd.pw_uid

/-- `fgets(buf, 256, file)` on the first line: read at most 255 characters,
stopping after the first newline (which is kept). -/
def takeLine : Nat → List Char → List Char
  | 0, _ => []
  | _, [] => []
  | n + 1, c :: rest => if c = '\n' then [c] else c :: takeLine n rest

/-- `fgets` on a freshly opened file: `none` (NULL) exactly when the file
is empty, otherwise the first line, capped at 255 characters. -/
def fgets256 (contents : List Char) : Option (List Char) :=
  match contents with
  | [] => none
  | _ :: _ => some (takeLine 255 contents)

/-- `snprintf(file_path, 256, "%s/%s", pw->pw_dir, config.file_path)`
(pronound.c line 121): concatenation truncated to 255 characters. -/
def mkPath (dir file : List Char) : List Char :=
  (dir ++ ['/'] ++ file).take 255

/-- `struct Config` (pronound.c lines 25-31). -/
structure Config where
  daemonise : Bool
  default_pronouns : List Char
  file_path : List Char
  port : Int
  daemon_user : List Char

/-- The built-in configuration (pronound.c lines 33-37).  Note that the
built-in `default_pronouns` string has no trailing newline. -/
def defaultConfig : Config :=
  { daemonise := false
    default_pronouns := str "not specified"
    file_path := str ".pronouns"
    port := 731
    daemon_user := str "_pronound" }

/-- `handle_request` (pronound.c lines 107-145): resolve the token, look the
uid up again for the home directory, open `<home>/<file_path>`, and answer
with the stripped first line plus a newline, the configured default, or the
fixed not-found string.  `fs` maps a path to `some contents` when `fopen`
succeeds and `none` when it fails. -/
def handle_request (db : Db) (fs : List Char → Option (List Char))
    (cfg : Config) (input : List Char) : List Char :=
  match resolveUid db input with
  | none => str "user not found\n"
  | some uid =>
    match db.byUid uid with
    | none => str "user not found\n"
    | some pw =>
      match fs (mkPath pw.pw_dir cfg.file_path) with
      | none => cfg.default_pronouns
      | some contents =>
        match fgets256 contents with
        | none => cfg.default_pronouns
        | some line => strip line ++ ['\n']

/-- `split_first_space` (pronound.c lines 167-185): split at the first
space; with no space the whole string is the key and the value pointer is
NULL (`none`). -/
def split_first_space : List Char → List Char × Option (List Char)
  | [] => ([], none)
  | c :: rest =>
    if c = ' ' then ([], some rest)
    else
      match split_first_space rest with
      | (f, r) => (c :: f, r)

/-- The per-line body of the `parse_config` loop (pronound.c lines 211-247),
applied to an already-stripped line.  A recognized value-taking key whose
value pointer is NULL (`defaults`: `strlen(value)`; `file`, `user`:
`strdup(value)`; `port`: `atoi(value)`) dereferences NULL: `none`.  The
`daemonise` branch guards the pointer (`value && ...`). -/
def parse_cleaned (cfg : Config) (cl : List Char) : Option Config :=
  if cl = [] then some cfg
  else if cl.head? = some '#' then some cfg
  else
    match split_first_space cl with
    | (key, value) =>
      if key = str "daemonise" then
        some { cfg with daemonise :=
          match value with
          | some v => v == str "true" || v == str "1"
          | none => false }
      else if key = str "defaults" then
        match value with
        | none => none
        | some v => some { cfg with default_pronouns := v ++ ['\n'] }
      else if key = str "file" then
        match value with
        | none => none
        | some v => some { cfg with file_path := v }
      else if key = str "port" then
        match value with
        | none => none
        | some v => some { cfg with port := atoi v }
      else if key = str "user" then
        match value with
        | none => none
        | some v => some { cfg with daemon_user := v }
      else some cfg

/-- One config line: `strip` then dispatch (pronound.c lines 213-246). -/
def parse_config_line (cfg : Config) (line : List Char) : Option Config :=
  parse_cleaned cfg (strip line)

/-- The `fgets` loop of `parse_config` over the whole file, as a list of
lines. -/
def parse_lines (cfg : Config) : List (List Char) → Option Config
  | [] => some cfg
  | line :: rest =>
    match parse_config_line cfg line with
    | none => none
    | some cfg' => parse_lines cfg' rest

/-- The config-path candidate computed at the top of `parse_config`
(pronound.c lines 197-202): environment variable first, then the filename
argument, then the built-in default path. -/
def computed_config_path (env : Option (List Char)) (filename : Option (List Char)) :
    List Char :=
  match env with
  | some e => e
  | none =>
    match filename with
    | some f => f
    | none => str "/etc/pronound.conf"

/-- `parse_config` (pronound.c lines 187-249).  The source computes
`config_file` (see `computed_config_path`) but line 204 opens `filename`,
so the computed candidate is dead.  `fs` maps a path to the file's lines;
`some (false, cfg)` is the `fopen`-failed return, `some (true, cfg')` the
success return, and the outer `none` the NULL dereference inside the loop. -/
def parse_config (env : Option (List Char)) (filename : List Char)
    (fs : List Char → Option (List (List Char))) (cfg : Config) :
    Option (Bool × Config) :=
  match computed_config_path env (some filename), fs filename with
  | _, none => some (false, cfg)
  | _, some lines =>
    match parse_lines cfg lines with
    | none => none
    | some cfg' => some (true, cfg')

/-- One `strtok(s, delims)` step: skip leading delimiters; if nothing is
left the token is NULL; otherwise the token runs to the next delimiter and
the saved pointer continues after it. -/
def strtok1 (delims : List Char) (s : List Char) :
    Option (List Char) × List Char :=
  match s.dropWhile (fun c => delims.contains c) with
  | [] => (none, [])
  | s1 =>
    (some (s1.takeWhile (fun c => !delims.contains c)),
     match s1.dropWhile (fun c => !delims.contains c) with
     | [] => []
     | _ :: r => r)

/-- Outcome of the client's argument phase (pronoun.c lines 19-35). -/
inductive ClientStep where
  | exitErr (msg : List Char)
  | proceed (token host port : List Char)
deriving DecidableEq

/-- The argument phase of the client `main` (pronoun.c lines 19-35), on the
argument vector after the program name.  With no argument the code prints
the usage message but does NOT return; it then calls `strtok(argv[1], "@")`
with `argv[1] = NULL`, which has no defined behaviour: `none`.
`ClientStep.exitErr` is a `return 1` after a diagnostic on stderr;
`ClientStep.proceed` carries token, hostname and port string into the
connection phase (exit 0 on success there, 1 on any connection error). -/
def client_arg_phase (argv : List (List Char)) : Option ClientStep :=
  match argv with
  | [] => none
  | a1 :: rest =>
    match strtok1 ['@'] a1 with
    | (tok?, st) =>
      match strtok1 [' '] st with
      | (host?, _) =>
        let port := match rest with | p :: _ => p | [] => str "731"
        match tok? with
        | none => some (ClientStep.exitErr (str "Username or UID is required"))
        | some tok =>
          match host? with
          | none => some (ClientStep.exitErr (str "Hostname is required"))
          | some host => some (ClientStep.proceed tok host port)

/-- `true` iff the list ends in a newline that is not preceded by another
newline: "exactly one trailing newline". -/
def startsWithExactlyOneNewline : List Char → Bool
  | [] => false
  | [c] => c == '\n'
  | c :: d :: _ => c == '\n' && !(d == '\n')

/-- `true` iff the string ends in exactly one newline character. -/
def endsInExactlyOneNewline (l : List Char) : Bool :=
  startsWithExactlyOneNewline l.reverse

/-- A user for concrete evaluations: alice, uid 1000, home /home/alice. -/
def pwAlice : Passwd := { pw_uid := 1000, pw_dir := str "/home/alice" }

/-- A one-user identity database: alice by uid 1000 and by name. -/
def dbAlice : Db :=
  { byUid := fun u => if u = 1000 then some pwAlice else none
    byName := fun n => if n = str "alice" then some pwAlice else none }

/-- An identity database with no accounts at all. -/
def dbEmpty : Db := { byUid := fun _ => none, byName := fun _ => none }

/-- The preference-file path of alice under the built-in configuration. -/
def alicePath : List Char := mkPath (str "/home/alice") (str ".pronouns")

/-- A filesystem with no files: every `fopen` fails. -/
def fsNone : List Char → Option (List Char) := fun _ => none

/-- Alice's preference file holds a whitespace-only first line. -/
def fsWs : List Char → Option (List Char) :=
  fun p => if p = alicePath then some (str " \n") else none

/-- Alice's preference file opens but is completely empty. -/
def fsEmpty : List Char → Option (List Char) :=
  fun p => if p = alicePath then some [] else none

/-- Alice's preference file holds "she/her" with trailing whitespace. -/
def fsShe : List Char → Option (List Char) :=
  fun p => if p = alicePath then some (str "she/her \n") else none

/-- The account whose uid is 4294967295 = 2^32 - 1 (the `uid_t` image of
the int value -1). -/
def pwMax : Passwd := { pw_uid := 4294967295, pw_dir := str "/nonexistent" }

/-- A database holding only the uid-4294967295 account. -/
def db10 : Db :=
  { byUid := fun u => if u = 4294967295 then some pwMax else none
    byName := fun _ => none }

/-- A config filesystem for the path-precedence check: the default path and
an override path hold different `port` lines. -/
def fsConf : List Char → Option (List (List Char)) :=
  fun p =>
    if p = str "/etc/pronound.conf" then some [str "port 100"]
    else if p = str "/tmp/override.conf" then some [str "port 9999"]
    else none

/-- Helper: the head of `dropWhile p` never satisfies `p`. -/
theorem head_dropWhile_false (p : Char → Bool) :
    ∀ (l : List Char) (a : Char), (l.dropWhile p).head? = some a → p a = false := by
  intro l
  induction l with
  | nil => intro a h; simp [List.dropWhile] at h
  | cons c cs ih =>
    intro a h
    cases hc : p c with
    | true =>
      rw [List.dropWhile_cons, hc] at h
      simp at h
      exact ih a h
    | false =>
      rw [List.dropWhile_cons, hc] at h
      simp at h
      exact h ▸ hc

/-- Helper: a newline in front of a list whose head is not whitespace is an
"exactly one newline" prefix. -/
theorem swone_cons (rest : List Char)
    (h : ∀ a, rest.head? = some a → isWsC a = false) :
    startsWithExactlyOneNewline ('\n' :: rest) = true := by
  cases rest with
  | nil => rfl
  | cons d t =>
    have hd : isWsC d = false := h d rfl
    have hdn : d ≠ '\n' := by
      intro he
      rw [he] at hd
      exact absurd hd (by decide)
    simp [startsWithExactlyOneNewline, hdn]

/-- Helper: appending one newline to a stripped string yields a string that
ends in exactly one newline. -/
theorem strip_newline_ends_once (l : List Char) :
    endsInExactlyOneNewline (strip l ++ ['\n']) = true := by
  unfold endsInExactlyOneNewline
  have hrev : (strip l ++ ['\n']).reverse = '\n' :: (strip l).reverse := by
    simp
  rw [hrev]
  apply swone_cons
  intro a ha
  have hs : (strip l).reverse = (l.dropWhile isWsC).reverse.dropWhile isWsC := by
    unfold strip
    rw [List.reverse_reverse]
  rw [hs] at ha
  exact head_dropWhile_false isWsC _ a ha

/-- C1: the response is claimed to always end in exactly one newline, but
the built-in default `"not specified"` (pronound.c line 34) has no trailing
newline, so a request for an existing user with no preference file under
the built-in configuration is answered with zero newlines. -/
theorem C1_default_lacks_newline :
    handle_request dbAlice fsNone defaultConfig (str "alice") = str "not specified" ∧
    endsInExactlyOneNewline (str "not specified") = false ∧
    endsInExactlyOneNewline (str "user not found\n") = true := by
  decide

/-- C3: whenever identity resolution fails (numeric or name token alike),
`handle_request` answers with the fixed string "user not found\n". -/
theorem C3_not_found (db : Db) (fs : List Char → Option (List Char))
    (cfg : Config) (input : List Char)
    (h : resolveUid db input = none) :
    handle_request db fs cfg input = str "user not found\n" := by
  unfold handle_request
  rw [h]

/-- C3 witness: the token "doesnotexist12345" resolves to no account in the
empty database and is answered with "user not found\n". -/
theorem C3_witness :
    handle_request dbEmpty fsNone defaultConfig (str "doesnotexist12345") =
      str "user not found\n" :=
  C3_not_found dbEmpty fsNone defaultConfig (str "doesnotexist12345") (by decide)

/-- C4: for a resolved user whose preference file opens non-empty, the
response is the first line (as read by `fgets` into a 256-byte buffer) with
surrounding whitespace stripped and exactly one newline appended, and that
response ends in exactly one newline. -/
theorem C4_first_line (db : Db) (fs : List Char → Option (List Char))
    (cfg : Config) (input : List Char) (uid : Nat) (pw : Passwd)
    (contents : List Char)
    (hres : resolveUid db input = some uid)
    (hpw : db.byUid uid = some pw)
    (hfs : fs (mkPath pw.pw_dir cfg.file_path) = some contents)
    (hne : contents ≠ []) :
    handle_request db fs cfg input = strip (takeLine 255 contents) ++ ['\n'] ∧
    endsInExactlyOneNewline (handle_request db fs cfg input) = true := by
  cases contents with
  | nil => exact absurd rfl hne
  | cons c cs =>
    constructor
    · simp only [handle_request, hres, hpw, hfs, fgets256]
    · simp only [handle_request, hres, hpw, hfs, fgets256]
      exact strip_newline_ends_once _

/-- C4 witness: alice's file holds "she/her" followed by a space and a
newline; the response is exactly "she/her\n". -/
theorem C4_witness :
    handle_request dbAlice fsShe defaultConfig (str "alice") = str "she/her\n" ∧
    endsInExactlyOneNewline (str "she/her\n") = true := by
  have h := C4_first_line dbAlice fsShe defaultConfig (str "alice") 1000 pwAlice
    (str "she/her \n") (by decide) (by decide) (by decide) (by decide)
  exact ⟨by rw [h.1]; decide, by decide⟩

/-- C2 counterexample: alice's preference file opens and its first line is
whitespace-only (" \n"); the claim says the response is the configured
default, but the code answers with a single bare newline, which differs
from the default "not specified". -/
theorem C2_counterexample :
    handle_request dbAlice fsWs defaultConfig (str "alice") = ['\n'] ∧
    (['\n'] : List Char) ≠ defaultConfig.default_pronouns := by
  decide

/-- C2 amended: the configured default is returned exactly when the first
read yields nothing (the file is empty); a non-empty but whitespace-only
first line is answered with a single newline character, not the default. -/
theorem C2_empty_vs_whitespace (db : Db) (fs : List Char → Option (List Char))
    (cfg : Config) (input : List Char) (uid : Nat) (pw : Passwd)
    (contents : List Char)
    (hres : resolveUid db input = some uid)
    (hpw : db.byUid uid = some pw)
    (hfs : fs (mkPath pw.pw_dir cfg.file_path) = some contents) :
    (contents = [] → handle_request db fs cfg input = cfg.default_pronouns) ∧
    (contents ≠ [] → strip (takeLine 255 contents) = [] →
      handle_request db fs cfg input = ['\n']) := by
  constructor
  · intro he
    subst he
    simp only [handle_request, hres, hpw, hfs, fgets256]
  · intro hne hstrip
    cases contents with
    | nil => exact absurd rfl hne
    | cons c cs =>
      simp only [handle_request, hres, hpw, hfs, fgets256, hstrip]
      rfl

/-- C2 witness: an empty preference file yields the default, and a
whitespace-only first line yields "\n". -/
theorem C2_witness :
    handle_request dbAlice fsEmpty defaultConfig (str "alice") =
      defaultConfig.default_pronouns ∧
    handle_request dbAlice fsWs defaultConfig (str "alice") = ['\n'] := by
  constructor
  · exact (C2_empty_vs_whitespace dbAlice fsEmpty defaultConfig (str "alice")
      1000 pwAlice [] (by decide) (by decide) (by decide)).1 rfl
  · exact (C2_empty_vs_whitespace dbAlice fsWs defaultConfig (str "alice")
      1000 pwAlice (str " \n") (by decide) (by decide) (by decide)).2
      (by decide) (by decide)

/-- C5 counterexample: after parsing the config line "port abc" the stored
port is 0 (what `atoi` returned), not the built-in default 731 the claim
says the configuration falls back to. -/
theorem C5_counterexample :
    (parse_lines defaultConfig [str "port abc"]).map Config.port = some 0 ∧
    (0 : Int) ≠ 731 := by
  decide

/-- C5 amended: a `port` line stores `atoi` of its value unvalidated, so a
non-numeric value stores 0 and is kept through bind time; the built-in
default 731 survives only when no `port` line overwrites it. -/
theorem C5_port_kept (cfg : Config) (line v : List Char)
    (h : strip line = 'p' :: 'o' :: 'r' :: 't' :: ' ' :: v) :
    parse_config_line cfg line = some { cfg with port := atoi v } := by
  unfold parse_config_line
  rw [h]
  rfl

/-- C5 witness: the line "port abc" stores `atoi "abc" = 0` into the
configuration. -/
theorem C5_witness :
    parse_config_line defaultConfig (str "port abc") =
      some { defaultConfig with port := atoi (str "abc") } ∧
    atoi (str "abc") = 0 ∧ defaultConfig.port = 731 :=
  ⟨C5_port_kept defaultConfig (str "port abc") (str "abc") (by decide),
   by decide, by decide⟩

/-- C6: the environment override is consulted first only in the dead
`config_file` computation; `parse_config` opens the `filename` argument
(pronound.c line 204), so with the environment variable naming a file whose
`port` line says 9999 and the filename argument naming one that says 100,
the parsed port is 100 either way — the environment variable never changes
which file is loaded. -/
theorem C6_env_ignored :
    computed_config_path (some (str "/tmp/override.conf"))
      (some (str "/etc/pronound.conf")) = str "/tmp/override.conf" ∧
    (parse_config (some (str "/tmp/override.conf")) (str "/etc/pronound.conf")
        fsConf defaultConfig).map (fun r => r.2.port) = some 100 ∧
    (parse_config none (str "/etc/pronound.conf")
        fsConf defaultConfig).map (fun r => r.2.port) = some 100 ∧
    (100 : Int) ≠ 9999 := by
  decide

/-- C7: two tokens, one numeric and one a name, that resolve to the same
uid receive identical responses from `handle_request`. -/
theorem C7_token_equiv (db : Db) (fs : List Char → Option (List Char))
    (cfg : Config) (t1 t2 : List Char) (u : Nat)
    (h1 : is_number t1 = true) (h2 : is_number t2 = false)
    (hr1 : resolveUid db t1 = some u) (hr2 : resolveUid db t2 = some u) :
    handle_request db fs cfg t1 = handle_request db fs cfg t2 := by
  unfold handle_request
  rw [hr1, hr2]

/-- C7 witness: the numeric token "1000" and the name token "alice" resolve
to the same account and get the same response. -/
theorem C7_witness :
    handle_request dbAlice fsShe defaultConfig (str "1000") =
      handle_request dbAlice fsShe defaultConfig (str "alice") :=
  C7_token_equiv dbAlice fsShe defaultConfig (str "1000") (str "alice") 1000
    (by decide) (by decide) (by decide) (by decide)

/-- C8: with no argument at all, the client prints the usage message but
does not return; it then calls `strtok` on the missing `argv[1]` (a null
pointer), which has no defined result — the claimed exit code 1 never
happens.  Other argument errors do take the defined `return 1` path. -/
theorem C8_missing_arg_undefined :
    client_arg_phase [] = none ∧
    client_arg_phase [str "alice"] =
      some (ClientStep.exitErr (str "Hostname is required")) := by
  constructor
  · rfl
  · decide

/-- C9: a config line that is exactly a value-taking key (`defaults`,
`file`, `port`, `user`) makes `split_first_space` return a NULL value
pointer which the corresponding branch dereferences; in the total embedding
these lines (and any file containing one) have no defined parse result. -/
theorem C9_null_value_line (cfg : Config) :
    parse_config_line cfg (str "defaults") = none ∧
    parse_config_line cfg (str "file") = none ∧
    parse_config_line cfg (str "port") = none ∧
    parse_config_line cfg (str "user") = none ∧
    parse_lines cfg [str "port"] = none :=
  ⟨rfl, rfl, rfl, rfl, rfl⟩

/-- C10: a token of one leading minus sign followed by digits passes
`is_number`, so `resolve` treats it as numeric and looks up the uid equal
to the negated digit value reduced modulo 2^32 (the `uid_t` cast), rather
than rejecting the token. -/
theorem C10_negative_numeric (db : Db) (ds : List Char)
    (hne : ds ≠ []) (hd : ds.all isDigitC = true) :
    is_number ('-' :: ds) = true ∧
    resolveUid db ('-' :: ds) =
      (db.byUid ((-(atoiDigits ds 0 : Int) % 2 ^ 32).toNat)).map Passwd.pw_uid := by
  have hnum : is_number ('-' :: ds) = true := by
    cases ds with
    | nil => exact absurd rfl hne
    | cons d t => simp [is_number, hd]
  refine ⟨hnum, ?_⟩
  unfold resolveUid
  rw [hnum]
  rfl

/-- C10 witness: the token "-1" is classified numeric and looks up uid
4294967295 = 2^32 - 1, which exists in `db10`. -/
theorem C10_witness :
    is_number ['-', '1'] = true ∧
    resolveUid db10 ['-', '1'] = some 4294967295 ∧
    (-(atoiDigits ['1'] 0 : Int) % 2 ^ 32).toNat = 4294967295 := by
  have h := C10_negative_numeric db10 ['1'] (by decide) (by decide)
  exact ⟨h.1, by rw [h.2]; decide, by decide⟩
